import Mathlib

/-
  Verification development for the GtkSignage repository.

  The Python sources are shallowly embedded as executable Lean definitions:
  pure fragments become Lean functions, module-level mutable state becomes
  explicit state passing, exceptions become Except values, and the external
  world (filesystem, network, hashing and datetime library functions) is
  passed in explicitly.  Python datetimes are modelled as Int instants (a
  total linear order), which is the only structure the code uses of them
  (comparison and formatting round-trips).
-/

/-- Embedding of signage/models.py, class Slide: the data carried by a
validated slide.  The Python attribute named end is called end_ here
because end is a Lean keyword. -/
structure Slide where
  source : String
  duration : Int
  start : Option Int
  end_ : Option Int
  hide : Bool
deriving Repr, DecidableEq

/-- Embedding of Slide.is_active (models.py lines 68-125).  The current
time is passed explicitly (the source reads datetime.now()).  The Python
code branches on truthiness of self.start / self.end; the constructor
normalises both to None or a datetime, and datetimes are always truthy,
so the branch structure is exactly a match on the two options. -/
def Slide.is_active (sl : Slide) (now : Int) : Bool :=
  if sl.hide then false
  else
    match sl.start, sl.end_ with
    | none, none => true
    | none, some e => decide (now ≤ e)
    | some s, none => decide (s ≤ now)
    | some s, some e => decide (s ≤ now) && decide (now ≤ e)

/-- A fragment of Python runtime values, covering the types that reach the
Slide constructor and SlideStore.add_slide: strings, ints, bools,
datetimes (as instants), None, and a constructor for any other object
(dicts, lists, floats are not distinguished; int() on such a value is
modelled as failing with TypeError, which matches all of them except
float). -/
inductive PyVal where
  | str (s : String)
  | int (n : Int)
  | bool (b : Bool)
  | dt (t : Int)
  | none
  | other
deriving Repr, DecidableEq

/-- The Python exceptions the embedded code raises. -/
inductive PyError where
  | valueError (msg : String)
  | typeError (msg : String)
  | otherError (msg : String)
deriving Repr, DecidableEq

/-- Python str.strip(): removes leading and trailing Python whitespace
(space, tab, newline, carriage return, vertical tab, form feed).  Defined
over the character list so that it reduces inside the kernel. -/
def isPySpace (c : Char) : Bool :=
  c = ' ' || c = Char.ofNat 9 || c = Char.ofNat 10 || c = Char.ofNat 13 ||
    c = Char.ofNat 11 || c = Char.ofNat 12

def pyStrip (s : String) : String :=
  String.mk (((s.data.dropWhile isPySpace).reverse.dropWhile isPySpace).reverse)

/-- Digits of a decimal literal folded to a number; fails on a non-digit. -/
def digitsToNat (cs : List Char) : Option Nat :=
  cs.foldl
    (fun acc c =>
      match acc with
      | Option.none => Option.none
      | some n => if c.isDigit then some (n * 10 + (c.toNat - 48)) else Option.none)
    (some 0)

/-- Python int(s) on a string: optional surrounding whitespace, optional
sign, then decimal digits (digit-group underscores are not modelled).
Returns none where Python raises ValueError. -/
def pyIntOfString (s : String) : Option Int :=
  let t := pyStrip s
  let signAndDigits : Bool × List Char :=
    match t.data with
    | [] => (false, [])
    | c :: rest =>
      if c = '-' then (true, rest)
      else if c = '+' then (false, rest)
      else (false, c :: rest)
  match signAndDigits with
  | (neg, ds) =>
    if ds.isEmpty then Option.none
    else
      match digitsToNat ds with
      | Option.none => Option.none
      | some n => some (if neg then -(n : Int) else (n : Int))

/-- Python int(x) applied to the duration argument when it is not already
an int (models.py lines 42-46): strings are parsed, anything else raises
TypeError inside int(), which the source turns into
TypeError "Duration must be an integer".  Python bools are instances of
int, so they pass the isinstance check unconverted with values 1 / 0. -/
def pyIntLike (v : PyVal) : Except PyError Int :=
  match v with
  | .int n => .ok n
  | .bool b => .ok (if b then 1 else 0)
  | .str s =>
    match pyIntOfString s with
    | some n => .ok n
    | Option.none => .error (.typeError "Duration must be an integer")
  | _ => .error (.typeError "Duration must be an integer")

/-- The start / end argument checks of Slide.__init__ (models.py lines
51-54): a datetime or None passes, anything else is a TypeError. -/
def asOptInt (v : PyVal) (msg : String) : Except PyError (Option Int) :=
  match v with
  | .dt t => .ok (some t)
  | .none => .ok Option.none
  | _ => .error (.typeError msg)

/-- The guard if start and end and start >= end of models.py line 55,
on the already-validated optional instants (datetimes are always truthy). -/
def startNotBeforeEnd (st en : Option Int) : Bool :=
  match st, en with
  | some s, some e => decide (e ≤ s)
  | _, _ => false

/-- Embedding of Slide.__init__ (models.py lines 20-66), with the checks in
source order: source type, source emptiness, duration conversion, duration
positivity, start type, end type, start before end, hide type.  The Python
assignment start if start else None is the identity here because datetimes
are always truthy. -/
def slideInit (source duration start end_ hide : PyVal) : Except PyError Slide :=
  match source with
  | .str src =>
    if pyStrip src = "" then .error (.valueError "Source cannot be empty")
    else
      match pyIntLike duration with
      | .error e => .error e
      | .ok dur =>
        if dur ≤ 0 then .error (.valueError "Duration must be positive")
        else
          match asOptInt start "Start time must be a datetime object" with
          | .error e => .error e
          | .ok st =>
            match asOptInt end_ "End time must be a datetime object" with
            | .error e => .error e
            | .ok en =>
              if startNotBeforeEnd st en then
                .error (.valueError "Start time must be before end time")
              else
                match hide with
                | .bool hd =>
                  .ok { source := src, duration := dur, start := st, end_ := en, hide := hd }
                | _ => .error (.typeError "Hide flag must be a boolean")
  | _ => .error (.typeError "Source must be a string")

/-- Claim C9: Slide.is_active returns False whenever hide is set; with hide
clear it is True with no time bounds, now ≤ end with only an end bound,
start ≤ now with only a start bound, and start ≤ now ≤ end with both,
boundaries included. -/
theorem C9_is_active_spec (sl : Slide) (now : Int) :
    (sl.hide = true → sl.is_active now = false)
    ∧ (sl.hide = false → sl.start = Option.none → sl.end_ = Option.none →
        sl.is_active now = true)
    ∧ (∀ e, sl.hide = false → sl.start = Option.none → sl.end_ = some e →
        (sl.is_active now = true ↔ now ≤ e))
    ∧ (∀ s, sl.hide = false → sl.start = some s → sl.end_ = Option.none →
        (sl.is_active now = true ↔ s ≤ now))
    ∧ (∀ s e, sl.hide = false → sl.start = some s → sl.end_ = some e →
        (sl.is_active now = true ↔ (s ≤ now ∧ now ≤ e))) := by
  refine ⟨?_, ?_, ?_, ?_, ?_⟩
  · intro h
    simp [Slide.is_active, h]
  · intro h h1 h2
    simp [Slide.is_active, h, h1, h2]
  · intro e h h1 h2
    simp [Slide.is_active, h, h1, h2]
  · intro s h h1 h2
    simp [Slide.is_active, h, h1, h2]
  · intro s e h h1 h2
    simp [Slide.is_active, h, h1, h2]

/-- A concrete slide with both bounds, used to instantiate theorems. -/
def slideBoth : Slide :=
  { source := "http://example.com/a", duration := 5, start := some 1, end_ := some 9,
    hide := false }

/-- Witness for C9 on a concrete slide with both bounds at an interior
instant. -/
theorem C9_is_active_witness :
    slideBoth.is_active 3 = true ↔ ((1 : Int) ≤ 3 ∧ (3 : Int) ≤ 9) :=
  (C9_is_active_spec slideBoth 3).2.2.2.2 1 9 rfl rfl rfl

/-- Failures of the duration conversion are always TypeErrors. -/
theorem pyIntLike_error_typeError (v : PyVal) (e : PyError)
    (h : pyIntLike v = .error e) : ∃ m, e = .typeError m := by
  cases v with
  | int n => simp [pyIntLike] at h
  | bool b => simp [pyIntLike] at h
  | str s =>
    simp only [pyIntLike] at h
    cases hp : pyIntOfString s with
    | none =>
      simp [hp] at h
      exact ⟨_, h.symm⟩
    | some n => simp [hp] at h
  | dt t =>
    simp [pyIntLike] at h
    exact ⟨_, h.symm⟩
  | none =>
    simp [pyIntLike] at h
    exact ⟨_, h.symm⟩
  | other =>
    simp [pyIntLike] at h
    exact ⟨_, h.symm⟩

/-- Failures of the start / end type check are always TypeErrors. -/
theorem asOptInt_error_typeError (v : PyVal) (msg : String) (e : PyError)
    (h : asOptInt v msg = .error e) : e = .typeError msg := by
  unfold asOptInt at h
  split at h <;> simp_all

/-- Claim C8: every successfully constructed Slide has a source that is not
empty after stripping whitespace, a positive duration, and start strictly
before end when both are present; and every failing construction reports a
ValueError or a TypeError (never any other exception). -/
theorem C8_slide_invariant (source duration start end_ hide : PyVal) :
    (∀ sl, slideInit source duration start end_ hide = .ok sl →
        pyStrip sl.source ≠ "" ∧ 0 < sl.duration ∧
        (∀ s e, sl.start = some s → sl.end_ = some e → s < e))
    ∧ (∀ msg, slideInit source duration start end_ hide ≠ .error (.otherError msg)) := by
  constructor
  · intro sl hok
    unfold slideInit at hok
    cases source <;> simp_all
    rename_i src
    by_cases hsrc : pyStrip src = ""
    · simp [hsrc] at hok
    · simp [hsrc] at hok
      cases hdur : pyIntLike duration <;> simp [hdur] at hok
      rename_i dur
      by_cases hpos : dur ≤ 0
      · simp [hpos] at hok
      · simp [hpos] at hok
        cases hst : asOptInt start "Start time must be a datetime object" <;>
          simp [hst] at hok
        rename_i st
        cases hen : asOptInt end_ "End time must be a datetime object" <;>
          simp [hen] at hok
        rename_i en
        by_cases hge : startNotBeforeEnd st en = true
        · simp [hge] at hok
        · simp [hge] at hok
          cases hide with
          | bool hd =>
            simp only [Except.ok.injEq] at hok
            subst hok
            refine ⟨hsrc, by show (0 : Int) < dur; omega, ?_⟩
            intro s e hs he
            have hs2 : st = some s := hs
            have he2 : en = some e := he
            subst hs2
            subst he2
            simp [startNotBeforeEnd] at hge
            omega
          | str s2 => simp at hok
          | int n2 => simp at hok
          | dt t2 => simp at hok
          | none => simp at hok
          | other => simp at hok
  · intro msg
    unfold slideInit
    cases source <;> simp
    rename_i src
    by_cases hsrc : pyStrip src = ""
    · simp [hsrc]
    · simp [hsrc]
      cases hdur : pyIntLike duration with
      | error e =>
        obtain ⟨m, hm⟩ := pyIntLike_error_typeError duration e hdur
        simp [hm]
      | ok dur =>
        by_cases hpos : dur ≤ 0
        · simp [hpos]
        · simp [hpos]
          cases hst : asOptInt start "Start time must be a datetime object" with
          | error e =>
            simp [asOptInt_error_typeError start _ e hst]
          | ok st =>
            cases hen : asOptInt end_ "End time must be a datetime object" with
            | error e =>
              simp [asOptInt_error_typeError end_ _ e hen]
            | ok en =>
              by_cases hge : startNotBeforeEnd st en = true
              · simp [hge]
              · simp [hge]
                cases hide <;> simp

/-- Witness for C8 at a concrete successful construction: a slide built
from source "s", duration the string "7", both bounds set with start
before end, satisfies the invariant. -/
theorem C8_slide_invariant_witness :
    ∃ sl, slideInit (.str "s") (.str "7") (.dt 2) (.dt 8) (.bool false) = .ok sl ∧
      pyStrip sl.source ≠ "" ∧ 0 < sl.duration := by
  refine ⟨{ source := "s", duration := 7, start := some 2, end_ := some 8, hide := false },
    rfl, ?_⟩
  have h := (C8_slide_invariant (.str "s") (.str "7") (.dt 2) (.dt 8) (.bool false)).1
    { source := "s", duration := 7, start := some 2, end_ := some 8, hide := false }
    rfl
  exact ⟨h.1, h.2.1⟩

/-- Commands of the CEC power API (signage/cec_control.py). -/
inductive CecCommand where
  | powerOn
  | powerOff
deriving Repr, DecidableEq

/-- Initial value of the module variable _fake_status (cec_control.py
line 26). -/
def fakeStatusInitial : String := "Off"

/-- The fake-mode branches of cec_power_on / cec_power_off (cec_control.py
lines 84-125): each one overwrites _fake_status with a constant. -/
def cecApply (_st : String) (c : CecCommand) : String :=
  match c with
  | .powerOn => "On"
  | .powerOff => "Off"

/-- get_cec_status in fake mode (cec_control.py lines 66-71): it returns
_fake_status unchanged. -/
def get_cec_status (st : String) : String := st

/-- The fake status after a sequence of power commands issued since
startup. -/
def cecRun (cmds : List CecCommand) : String :=
  cmds.foldl cecApply fakeStatusInitial

/-- The fold preserves membership in the two-state set. -/
theorem cecFold_two_state (st : String) (hst : st = "On" ∨ st = "Off")
    (cmds : List CecCommand) :
    List.foldl cecApply st cmds = "On" ∨ List.foldl cecApply st cmds = "Off" := by
  induction cmds generalizing st with
  | nil => simpa using hst
  | cons c cs ih =>
    cases c with
    | powerOn => exact ih (cecApply st .powerOn) (Or.inl rfl)
    | powerOff => exact ih (cecApply st .powerOff) (Or.inr rfl)

/-- Claim C7: in fake CEC mode the power state starts Off, power on and
power off set it to On and Off, the status read always equals the value
written by the most recent command, and it is always exactly On or Off. -/
theorem C7_fake_cec_two_state (cmds : List CecCommand) :
    get_cec_status (cecRun []) = "Off"
    ∧ (∀ pre, get_cec_status (cecRun (pre ++ [CecCommand.powerOn])) = "On")
    ∧ (∀ pre, get_cec_status (cecRun (pre ++ [CecCommand.powerOff])) = "Off")
    ∧ (∀ pre c, get_cec_status (cecRun (pre ++ [c])) = cecApply (get_cec_status (cecRun pre)) c)
    ∧ (get_cec_status (cecRun cmds) = "On" ∨ get_cec_status (cecRun cmds) = "Off") := by
  refine ⟨rfl, ?_, ?_, ?_, ?_⟩
  · intro pre
    simp [cecRun, get_cec_status, List.foldl_append, cecApply]
  · intro pre
    simp [cecRun, get_cec_status, List.foldl_append, cecApply]
  · intro pre c
    simp [cecRun, get_cec_status, List.foldl_append]
  · exact cecFold_two_state fakeStatusInitial (Or.inr rfl) cmds

/-- JSON values as returned by json.load. -/
inductive JsonVal where
  | jnull
  | jbool (b : Bool)
  | jnum (n : Int)
  | jstr (s : String)
  | jarr (xs : List JsonVal)
  | jobj (fields : List (String × JsonVal))

/-- The states of the JSON file as observed by JSONFileHandler.load:
missing, unreadable (open or read raises an OSError-like exception), or
readable with some text content. -/
inductive FileState where
  | missing
  | unreadable
  | content (text : String)
deriving Repr, DecidableEq

/-- Embedding of JSONFileHandler.load (jsonfile.py lines 33-60).  The
stdlib parser json.load is passed in as parseJson, with Option.none for a
json.JSONDecodeError.  Every branch of the source returns a value (missing
file, decode error and any other read error all return an empty list), so
the embedding is a total function: that totality is the never-raises part
of claim C10.  The FileLock acquired around the body is not part of the
JSON file state and is not modelled. -/
def jsonFileLoad (parseJson : String → Option JsonVal) : FileState → JsonVal
  | .missing => .jarr []
  | .unreadable => .jarr []
  | .content text =>
    match parseJson text with
    | some data => data
    | Option.none => .jarr []

/-- Claim C10: JSONFileHandler.load is total: it returns the parsed data
when the file exists and parses, and an empty list when the file is
missing, unreadable, or holds invalid JSON. -/
theorem C10_load_total (parseJson : String → Option JsonVal) (fs : FileState) :
    (fs = .missing → jsonFileLoad parseJson fs = .jarr [])
    ∧ (fs = .unreadable → jsonFileLoad parseJson fs = .jarr [])
    ∧ (∀ text, fs = .content text → parseJson text = Option.none →
        jsonFileLoad parseJson fs = .jarr [])
    ∧ (∀ text d, fs = .content text → parseJson text = some d →
        jsonFileLoad parseJson fs = d) := by
  refine ⟨?_, ?_, ?_, ?_⟩
  · intro h
    subst h
    rfl
  · intro h
    subst h
    rfl
  · intro text h hp
    subst h
    simp [jsonFileLoad, hp]
  · intro text d h hp
    subst h
    simp [jsonFileLoad, hp]

/-- A concrete stand-in for json.load used to instantiate C10. -/
def parseJsonDemo (s : String) : Option JsonVal :=
  if s = "1" then some (.jnum 1) else Option.none

/-- Witness for C10: a readable file whose text parses gives back the
parsed value, and one whose text does not parse gives an empty list. -/
theorem C10_load_total_witness :
    jsonFileLoad parseJsonDemo (.content "1") = .jnum 1
    ∧ jsonFileLoad parseJsonDemo (.content "oops") = .jarr [] :=
  ⟨(C10_load_total parseJsonDemo (.content "1")).2.2.2 "1" (.jnum 1) rfl rfl,
   (C10_load_total parseJsonDemo (.content "oops")).2.2.1 "oops" rfl rfl⟩

/-- A Flask redirect response, identified by its Location target. -/
structure HttpRedirect where
  location : String
deriving Repr, DecidableEq

/-- Embedding of the delete_slide route (routes/slides.py lines 278-298):
the route loads all slides, deletes the index when it is in range and
saves, and always redirects to /admin.  The returned list is the stored
slide list after the request. -/
def delete_slide (slides : List Slide) (index : Int) : List Slide × HttpRedirect :=
  if 0 ≤ index ∧ index < slides.length then
    (slides.eraseIdx index.toNat, { location := "/admin" })
  else
    (slides, { location := "/admin" })

/-- Claim C6: deleting index i removes exactly the slide at position i when
in range (keeping every other slide in order), leaves the list unchanged
when out of range, and always redirects to the admin page. -/
theorem C6_delete_slide_spec (slides : List Slide) (index : Int) :
    (∀ i : Nat, index = i → i < slides.length →
        (delete_slide slides index).1 = slides.take i ++ slides.drop (i + 1)
        ∧ (delete_slide slides index).1.length + 1 = slides.length)
    ∧ (¬ (0 ≤ index ∧ index < slides.length) → (delete_slide slides index).1 = slides)
    ∧ (delete_slide slides index).2 = { location := "/admin" } := by
  refine ⟨?_, ?_, ?_⟩
  · intro i hi hlt
    subst hi
    have hin : (0 : Int) ≤ i ∧ (i : Int) < slides.length := by
      constructor
      · positivity
      · exact_mod_cast hlt
    simp only [delete_slide, if_pos hin, Int.toNat_natCast]
    constructor
    · exact List.eraseIdx_eq_take_drop_succ slides i
    · rw [List.length_eraseIdx]
      simp [hlt]
      omega
  · intro h
    simp [delete_slide, h]
  · by_cases h : 0 ≤ index ∧ index < slides.length <;> simp [delete_slide, h]

/-- A second concrete slide, distinct from slideBoth. -/
def slideAlways : Slide :=
  { source := "http://example.com/b", duration := 8, start := Option.none,
    end_ := Option.none, hide := false }

/-- Witness for C6: deleting index 1 from a three-slide list keeps slides
0 and 2 in order; deleting index 5 changes nothing. -/
theorem C6_delete_slide_witness :
    (delete_slide [slideAlways, slideBoth, slideAlways] 1).1 = [slideAlways, slideAlways]
    ∧ (delete_slide [slideAlways, slideBoth, slideAlways] 5).1
        = [slideAlways, slideBoth, slideAlways] := by
  constructor
  · have h := (C6_delete_slide_spec [slideAlways, slideBoth, slideAlways] 1).1 1 rfl
      (by decide)
    simpa using h.1
  · exact (C6_delete_slide_spec [slideAlways, slideBoth, slideAlways] 5).2.1 (by decide)

/-- What the kiosk webview is asked to show by one slide_loop call: either
the "No slides yet" admin-console prompt page (ui.py lines 210-236) or a
slide's source. -/
inductive Display where
  | adminPrompt
  | slideView (sl : Slide)
deriving Repr, DecidableEq

/-- The SignageWindow state that slide_loop reads and writes: slide_index. -/
structure UiState where
  slide_index : Nat
deriving Repr, DecidableEq

/-- One slide_loop invocation: what is displayed, the updated window state,
and the delay in seconds passed to GLib.timeout_add_seconds for the next
invocation. -/
structure LoopResult where
  display : Display
  state : UiState
  delaySeconds : Int
deriving Repr, DecidableEq

/-- Embedding of SignageWindow.slide_loop (ui.py lines 183-308).  The
active slide list comes from SlideStore.get_active_slides.  With no active
slides the index is reset, the admin prompt is shown and the next call is
scheduled in 5 seconds; otherwise the index is first reduced modulo the
list length, that slide is shown (the caching and load-failure fallbacks
change which bytes render but not which slide is current), the index is
advanced by one modulo the length, and the next call is scheduled after
the current slide's duration. -/
def slide_loop (active : List Slide) (st : UiState) : LoopResult :=
  if hne : active = [] then
    { display := .adminPrompt, state := { slide_index := 0 }, delaySeconds := 5 }
  else
    let i := st.slide_index % active.length
    let cur := active.get ⟨i, Nat.mod_lt _ (List.length_pos.mpr hne)⟩
    { display := .slideView cur
      state := { slide_index := (i + 1) % active.length }
      delaySeconds := cur.duration }

/-- Claim C1: slide_loop is a timer-driven index cycle: with n > 0 active
slides it shows the slide at slide_index mod n, advances slide_index to
(slide_index + 1) mod n, and schedules the next call after that slide's
duration; with no active slides it resets the index to 0, shows the admin
prompt, and schedules the next call after 5 seconds. -/
theorem C1_slide_loop_spec (active : List Slide) (st : UiState) :
    (active = [] →
      slide_loop active st =
        { display := .adminPrompt, state := { slide_index := 0 }, delaySeconds := 5 })
    ∧ (∀ h : active ≠ [],
        slide_loop active st =
          { display := .slideView
              (active.get ⟨st.slide_index % active.length,
                Nat.mod_lt _ (List.length_pos.mpr h)⟩)
            state := { slide_index := (st.slide_index + 1) % active.length }
            delaySeconds :=
              (active.get ⟨st.slide_index % active.length,
                Nat.mod_lt _ (List.length_pos.mpr h)⟩).duration }) := by
  constructor
  · intro h
    subst h
    rfl
  · intro h
    unfold slide_loop
    rw [dif_neg h]
    simp [Nat.mod_add_mod]

/-- Witness for C1 on a one-slide list: the slide is shown, the index wraps
back to 0, and the delay is its duration. -/
theorem C1_slide_loop_witness :
    slide_loop [slideBoth] { slide_index := 0 } =
      { display := .slideView slideBoth, state := { slide_index := 0 },
        delaySeconds := 5 } := by
  have h := (C1_slide_loop_spec [slideBoth] { slide_index := 0 }).2 (by simp)
  simpa using h

/-- The observable state of the slides.json file for SlideStore: its
modification time (Option.none when the file is missing, in which case
os.path.getmtime raises FileNotFoundError) and the slide list that
_load_slides would build from its current content.  The per-item parsing
done by _load_slides is the constructor validation embedded as slideInit;
here the file is abstracted to its parsed result. -/
structure SlideFile where
  mtime : Option Int
  slides : List Slide
deriving Repr, DecidableEq

/-- The SlideStore class state: _slides and _last_modified_time
(slidestore.py lines 28-29). -/
structure StoreState where
  slides : List Slide
  lastModified : Int
deriving Repr, DecidableEq

/-- Embedding of SlideStore.force_reload (slidestore.py lines 104-113):
reset the recorded modification time to 0. -/
def force_reload (st : StoreState) : StoreState :=
  { st with lastModified := 0 }

/-- Embedding of SlideStore.get_active_slides (slidestore.py lines 72-102):
read the file's mtime; if it differs from the recorded one, record it and
reload _slides from the file; on FileNotFoundError set _slides to the
empty list; finally return the slides that are active now. -/
def get_active_slides (fs : SlideFile) (now : Int) (st : StoreState) :
    List Slide × StoreState :=
  let st1 :=
    match fs.mtime with
    | Option.none => { st with slides := [] }
    | some m =>
      if m ≠ st.lastModified then { slides := fs.slides, lastModified := m }
      else st
  (st1.slides.filter (fun sl => sl.is_active now), st1)

/-- Counterexample to claim C2 as stated: the claim says the reload happens
"always after force_reload".  force_reload records time 0, and the reload
condition is mtime different from the recorded time, so a slide file whose
modification time is exactly 0 (the epoch) is NOT reloaded after
force_reload: here the file has no slides, yet the stale in-memory slide
is still returned. -/
theorem C2_counterexample :
    (get_active_slides { mtime := some 0, slides := [] } 0
        (force_reload { slides := [slideAlways], lastModified := 7 })).1
      = [slideAlways]
    ∧ ({ mtime := some 0, slides := [] } : SlideFile).slides.filter
        (fun sl => sl.is_active 0) = [] := by
  constructor <;> rfl

/-- Claim C2 as amended: the in-memory list is reloaded if and only if the
file's mtime differs from the recorded one (so after force_reload, which
records 0, the next access reloads whenever the file's mtime is nonzero);
the call returns the is_active filter of the in-memory list, and the empty
list when the file is missing. -/
theorem C2_get_active_slides_spec (fs : SlideFile) (now : Int) (st : StoreState) :
    (∀ m, fs.mtime = some m → m ≠ st.lastModified →
        (get_active_slides fs now st).2 = { slides := fs.slides, lastModified := m })
    ∧ (∀ m, fs.mtime = some m → m = st.lastModified →
        (get_active_slides fs now st).2 = st)
    ∧ (fs.mtime = Option.none →
        (get_active_slides fs now st).1 = []
        ∧ (get_active_slides fs now st).2 = { st with slides := [] })
    ∧ ((get_active_slides fs now st).1
        = (get_active_slides fs now st).2.slides.filter (fun sl => sl.is_active now))
    ∧ (∀ m, fs.mtime = some m → m ≠ 0 →
        (get_active_slides fs now (force_reload st)).2.slides = fs.slides) := by
  refine ⟨?_, ?_, ?_, ?_, ?_⟩
  · intro m hm hne
    simp [get_active_slides, hm, hne]
  · intro m hm heq
    simp [get_active_slides, hm, heq]
  · intro hm
    simp [get_active_slides, hm]
  · cases hm : fs.mtime with
    | none => simp [get_active_slides, hm]
    | some m =>
      by_cases hne : m ≠ st.lastModified <;> simp [get_active_slides, hm, hne]
  · intro m hm hne
    simp [get_active_slides, force_reload, hm, hne]

/-- Witness for C2 (amended): a file with nonzero mtime 3 and one slide,
read after force_reload, is reloaded; with matching recorded time the
state is kept. -/
theorem C2_get_active_slides_witness :
    (get_active_slides { mtime := some 3, slides := [slideAlways] } 0
        (force_reload { slides := [], lastModified := 9 })).2.slides = [slideAlways]
    ∧ (get_active_slides { mtime := some 3, slides := [slideAlways] } 0
        { slides := [], lastModified := 3 }).2
        = { slides := [], lastModified := 3 } := by
  constructor
  · exact (C2_get_active_slides_spec { mtime := some 3, slides := [slideAlways] } 0
      (force_reload { slides := [], lastModified := 9 })).2.2.2.2 3 rfl (by decide)
  · exact (C2_get_active_slides_spec { mtime := some 3, slides := [slideAlways] } 0
      { slides := [], lastModified := 3 }).2.1 3 rfl rfl

/-- The cache directory (cache.py lines 28-33; the default "cache", the
CACHE_DIR environment override being out of scope). -/
def CACHE_DIR : String := "cache"

/-- Filesystem paths as component lists (pathlib Path values). -/
abbrev CachePath := List String

/-- One asset-bearing element found by BeautifulSoup in a fetched page: a
stylesheet link (whose href may be absent), a script with a src, an img
with a src, or any other node. -/
inductive Tag where
  | cssLink (href : Option String)
  | scriptSrc (src : String)
  | imgSrc (src : String)
  | otherNode
deriving Repr, DecidableEq

/-- The parse of the fetched HTML: the href of a base tag when one exists,
and the asset-bearing tags in document order. -/
structure Soup where
  baseHref : Option String
  tags : List Tag
deriving Repr, DecidableEq

/-- The outside world as cache.py sees it: page and asset downloads
(requests.get plus raise_for_status plus the HTML parse; the error value
is the caught exception), file writes (an error is an OSError), file
existence, md5 hex digests (hashlib.md5(url.encode()).hexdigest()), URL
joining and URL path extraction (urllib.parse), and the working directory
against which Path.absolute() resolves. -/
structure WebEnv where
  fetchPage : String → Except String Soup
  fetchAsset : String → Except String Unit
  writeFile : CachePath → Except String Unit
  existsFile : CachePath → Bool
  md5hex : String → String
  urljoin : String → String → String
  urlPath : String → String
  cwd : String

/-- Embedding of URLCache.get_cache_path (cache.py lines 44-65): the
cached HTML for a URL lives at CACHE_DIR/md5(url).html (the mkdir side
effect is not modelled). -/
def get_cache_path (env : WebEnv) (url : String) : CachePath :=
  [CACHE_DIR, env.md5hex url ++ ".html"]

/-- Embedding of URLCache.get_cache_dir_for_url (cache.py lines 67-87):
a URL's supporting files live under CACHE_DIR/md5(url)/. -/
def get_cache_dir_for_url (env : WebEnv) (url : String) : CachePath :=
  [CACHE_DIR, env.md5hex url]

/-- Path.absolute() rendered as a string, resolving against the working
directory. -/
def absPathStr (env : WebEnv) (p : CachePath) : String :=
  env.cwd ++ "/" ++ String.intercalate "/" p

/-- Index of the last occurrence of a character in a character list. -/
def lastIdx (cs : List Char) (c : Char) : Option Nat :=
  ((List.range cs.length).filter (fun i => cs.get? i == some c)).getLast?

/-- The extension part of os.path.splitext: the suffix of the path from
its last dot, provided that dot lies in the final path component and some
character of the component before it is not itself a dot. -/
def splitextExt (p : String) : String :=
  let cs := p.data
  match lastIdx cs '.' with
  | Option.none => ""
  | some di =>
    let fileStart :=
      match lastIdx cs '/' with
      | Option.none => 0
      | some si => si + 1
    let dotAfterSep : Bool :=
      match lastIdx cs '/' with
      | Option.none => true
      | some si => decide (si < di)
    let hasNonDot := ((List.range di).drop fileStart).any (fun j => ! (cs.get? j == some '.'))
    if dotAfterSep && hasNonDot then String.mk (cs.drop di) else ""

/-- The result triple of _cache_supporting_file (cache.py line 207). -/
structure AssetResult where
  success : Bool
  cacheFilename : Option String
  originalUrl : Option String
deriving Repr, DecidableEq

/-- Embedding of URLCache._cache_supporting_file (cache.py lines 195-240):
resolve the asset URL against the base URL, name the local copy by the md5
of the resolved URL plus the URL path's extension (falling back to the tag
kind), download the asset and write it into the cache directory; every
failure is caught and reported as (False, None, None). -/
def cache_supporting_file (env : WebEnv) (relativeUrl baseUrl : String)
    (cacheDir : CachePath) (fileType : String) : AssetResult :=
  let absoluteUrl := env.urljoin baseUrl relativeUrl
  let urlHash := env.md5hex absoluteUrl
  let extension0 := splitextExt (env.urlPath absoluteUrl)
  let extension := if extension0 = "" then "." ++ fileType else extension0
  let cacheFilename := urlHash ++ extension
  match env.fetchAsset absoluteUrl with
  | .error _ =>
    { success := false, cacheFilename := Option.none, originalUrl := Option.none }
  | .ok _ =>
    match env.writeFile (cacheDir ++ [cacheFilename]) with
    | .error _ =>
      { success := false, cacheFilename := Option.none, originalUrl := Option.none }
    | .ok _ =>
      { success := true, cacheFilename := some cacheFilename,
        originalUrl := some relativeUrl }

/-- One iteration of the three rewrite loops of cache_url (cache.py lines
159-181): cache the referenced asset and, when that succeeds with a truthy
filename, point the reference at the local copy through an absolute
file:// URL; otherwise leave the tag unchanged.  The three source loops
visit disjoint tag sets and each iteration touches only its own tag, so
they are embedded as a single map over the tag list. -/
def rewriteTag (env : WebEnv) (baseUrl : String) (cacheDir : CachePath) :
    Tag → Tag
  | .cssLink (some href) =>
    let r := cache_supporting_file env href baseUrl cacheDir "css"
    match r.cacheFilename with
    | some fn =>
      if r.success && ! (fn == "") then
        .cssLink (some ("file://" ++ absPathStr env (cacheDir ++ [fn])))
      else .cssLink (some href)
    | Option.none => .cssLink (some href)
  | .cssLink Option.none => .cssLink Option.none
  | .scriptSrc src =>
    let r := cache_supporting_file env src baseUrl cacheDir "js"
    match r.cacheFilename with
    | some fn =>
      if r.success && ! (fn == "") then
        .scriptSrc ("file://" ++ absPathStr env (cacheDir ++ [fn]))
      else .scriptSrc src
    | Option.none => .scriptSrc src
  | .imgSrc src =>
    let r := cache_supporting_file env src baseUrl cacheDir "img"
    match r.cacheFilename with
    | some fn =>
      if r.success && ! (fn == "") then
        .imgSrc ("file://" ++ absPathStr env (cacheDir ++ [fn]))
      else .imgSrc src
    | Option.none => .imgSrc src
  | .otherNode => .otherNode

/-- The base URL for resolving relative asset references (cache.py lines
148-152): the page URL, or the base tag's href joined onto it when a base
tag with a truthy href exists. -/
def cacheBaseUrl (env : WebEnv) (url : String) (soup : Soup) : String :=
  match soup.baseHref with
  | some h => if h = "" then url else env.urljoin url h
  | Option.none => url

/-- The try body of URLCache.cache_url (cache.py lines 126-193) as an
Except computation: fetch and parse the page, rewrite the asset references
while caching the assets, then write the rewritten HTML at the page's
cache path.  The ok value is the rewritten tag list, which is the document
written to disk; the error value is the caught exception. -/
def cache_url_run (env : WebEnv) (url : String) : Except String (List Tag) :=
  match env.fetchPage url with
  | .error e => .error e
  | .ok soup =>
    let baseUrl := cacheBaseUrl env url soup
    let cacheDir := get_cache_dir_for_url env url
    let newTags := soup.tags.map (rewriteTag env baseUrl cacheDir)
    match env.writeFile (get_cache_path env url) with
    | .error e => .error e
    | .ok _ => .ok newTags

/-- URLCache.cache_url's return value: True on success, False when the try
body raised (the except at cache.py lines 191-193 catches every exception,
so the Python function never raises; this embedding is correspondingly
total). -/
def cache_url (env : WebEnv) (url : String) : Bool :=
  match cache_url_run env url with
  | .ok _ => true
  | .error _ => false

/-- Embedding of URLCache.is_cached (cache.py lines 89-101). -/
def is_cached (env : WebEnv) (url : String) : Bool :=
  env.existsFile (get_cache_path env url)

/-- Embedding of URLCache.get_cached_url (cache.py lines 242-257). -/
def get_cached_url (env : WebEnv) (url : String) : String :=
  if is_cached env url then "file://" ++ absPathStr env (get_cache_path env url)
  else url

/-- The asset reference carried by a tag, if any. -/
def Tag.ref : Tag → Option String
  | .cssLink h => h
  | .scriptSrc s => some s
  | .imgSrc s => some s
  | .otherNode => Option.none

/-- Appending the same string on the right is cancellative. -/
theorem stringAppendRightCancel (a b c : String) (h : a ++ c = b ++ c) : a = b := by
  have hd := congrArg String.data h
  simp only [String.data_append] at hd
  exact String.ext (List.append_cancel_right hd)

/-- The filename produced by _cache_supporting_file, when any, is the md5
of the resolved asset URL followed by an extension. -/
theorem cache_supporting_file_filename (env : WebEnv) (rel base : String)
    (cdir : CachePath) (ft : String) (fn : String)
    (h : (cache_supporting_file env rel base cdir ft).cacheFilename = some fn) :
    ∃ ext, fn = env.md5hex (env.urljoin base rel) ++ ext := by
  simp only [cache_supporting_file] at h
  split at h
  · simp at h
  · split at h
    · simp at h
    · simp only [Option.some.injEq] at h
      exact ⟨_, h.symm⟩

/-- Claim C3: the cache layout is keyed by hashing: the page HTML path and
the asset directory are both derived from md5(url) under CACHE_DIR, two
URLs share a cache path or cache directory only when their hashes collide,
asset copies are named by the md5 of the resolved asset URL, and cache_url
saves the page with each successfully cached asset reference rewritten to
an absolute file:// URL inside the page's own cache directory. -/
theorem C3_cache_hash_layout (env : WebEnv) :
    (∀ url, get_cache_path env url = [CACHE_DIR, env.md5hex url ++ ".html"]
        ∧ get_cache_dir_for_url env url = [CACHE_DIR, env.md5hex url])
    ∧ (∀ u1 u2, get_cache_path env u1 = get_cache_path env u2 →
        env.md5hex u1 = env.md5hex u2)
    ∧ (∀ u1 u2, get_cache_dir_for_url env u1 = get_cache_dir_for_url env u2 →
        env.md5hex u1 = env.md5hex u2)
    ∧ (∀ rel base cdir ft fn,
        (cache_supporting_file env rel base cdir ft).cacheFilename = some fn →
        ∃ ext, fn = env.md5hex (env.urljoin base rel) ++ ext)
    ∧ (∀ url soup tags, env.fetchPage url = .ok soup →
        cache_url_run env url = .ok tags →
        tags = soup.tags.map
          (rewriteTag env (cacheBaseUrl env url soup) (get_cache_dir_for_url env url)))
    ∧ (∀ baseUrl cdir t, rewriteTag env baseUrl cdir t = t
        ∨ ∃ r fn, t.ref = some r
            ∧ (rewriteTag env baseUrl cdir t).ref
                = some ("file://" ++ absPathStr env (cdir ++ [fn]))
            ∧ ∃ ext, fn = env.md5hex (env.urljoin baseUrl r) ++ ext) := by
  refine ⟨fun url => ⟨rfl, rfl⟩, ?_, ?_, ?_, ?_, ?_⟩
  · intro u1 u2 h
    simp only [get_cache_path, List.cons.injEq, and_true] at h
    exact stringAppendRightCancel _ _ ".html" h.2
  · intro u1 u2 h
    simp only [get_cache_dir_for_url, List.cons.injEq, and_true] at h
    exact h.2
  · exact fun rel base cdir ft fn h =>
      cache_supporting_file_filename env rel base cdir ft fn h
  · intro url soup tags hf hrun
    unfold cache_url_run at hrun
    split at hrun
    · rename_i e he
      rw [hf] at he
      cases he
    · rename_i soup2 hs2
      rw [hf] at hs2
      injection hs2 with hs2
      subst hs2
      split at hrun
      · cases hrun
      · simp only [Except.ok.injEq] at hrun
        exact hrun.symm
  · intro baseUrl cdir t
    cases t with
    | cssLink h =>
      cases h with
      | none => exact Or.inl rfl
      | some href =>
        simp only [rewriteTag]
        cases hfn : (cache_supporting_file env href baseUrl cdir "css").cacheFilename with
        | none => exact Or.inl rfl
        | some fn =>
          dsimp only
          by_cases hs :
              ((cache_supporting_file env href baseUrl cdir "css").success
                && ! (fn == "")) = true
          · rw [if_pos hs]
            exact Or.inr ⟨href, fn, rfl, rfl,
              cache_supporting_file_filename env href baseUrl cdir "css" fn hfn⟩
          · rw [if_neg hs]
            exact Or.inl rfl
    | scriptSrc src =>
      simp only [rewriteTag]
      cases hfn : (cache_supporting_file env src baseUrl cdir "js").cacheFilename with
      | none => exact Or.inl rfl
      | some fn =>
        dsimp only
        by_cases hs :
            ((cache_supporting_file env src baseUrl cdir "js").success
              && ! (fn == "")) = true
        · rw [if_pos hs]
          exact Or.inr ⟨src, fn, rfl, rfl,
            cache_supporting_file_filename env src baseUrl cdir "js" fn hfn⟩
        · rw [if_neg hs]
          exact Or.inl rfl
    | imgSrc src =>
      simp only [rewriteTag]
      cases hfn : (cache_supporting_file env src baseUrl cdir "img").cacheFilename with
      | none => exact Or.inl rfl
      | some fn =>
        dsimp only
        by_cases hs :
            ((cache_supporting_file env src baseUrl cdir "img").success
              && ! (fn == "")) = true
        · rw [if_pos hs]
          exact Or.inr ⟨src, fn, rfl, rfl,
            cache_supporting_file_filename env src baseUrl cdir "img" fn hfn⟩
        · rw [if_neg hs]
          exact Or.inl rfl
    | otherNode => exact Or.inl rfl

/-- A concrete environment for exercising the cache: one page at
http://e containing a single image pic.png, every asset download failing,
every file write succeeding, nothing cached on disk yet.  The hash and URL
helpers are simple stand-ins. -/
def envAssetFail : WebEnv :=
  { fetchPage := fun u =>
      if u = "http://e" then .ok { baseHref := Option.none, tags := [.imgSrc "pic.png"] }
      else .error "404"
    fetchAsset := fun _ => .error "network down"
    writeFile := fun _ => .ok ()
    existsFile := fun _ => false
    md5hex := fun s => "h" ++ s
    urljoin := fun _ r => r
    urlPath := fun s => s
    cwd := "/home/kiosk" }

/-- Counterexample to claim C4 as stated: the claim says cache_url returns
False when ANY download step fails.  Here the download of the supporting
image pic.png fails, the reference is left unrewritten, and cache_url
still returns True (the asset loop of cache.py lines 176-181 tolerates
per-asset failures; only the page fetch, parse and final write are guarded
by the function-level try). -/
theorem C4_counterexample :
    cache_url envAssetFail "http://e" = true
    ∧ envAssetFail.fetchAsset "pic.png" = .error "network down"
    ∧ cache_url_run envAssetFail "http://e" = .ok [.imgSrc "pic.png"] := by
  refine ⟨rfl, rfl, rfl⟩

/-- Claim C4 as amended: cache_url never raises (it is total); it returns
False exactly when downloading or parsing the main page or writing the
cached HTML fails, and True otherwise — failures while caching individual
supporting assets leave those references unrewritten and do not affect the
result; get_cached_url returns a file:// URL to the cached copy when the
URL is cached and the original URL unchanged when it is not. -/
theorem C4_cache_best_effort (env : WebEnv) (url : String) :
    (∀ e, env.fetchPage url = .error e → cache_url env url = false)
    ∧ (∀ soup e, env.fetchPage url = .ok soup →
        env.writeFile (get_cache_path env url) = .error e →
        cache_url env url = false)
    ∧ (∀ soup, env.fetchPage url = .ok soup →
        env.writeFile (get_cache_path env url) = .ok () →
        cache_url env url = true)
    ∧ (is_cached env url = true →
        get_cached_url env url = "file://" ++ absPathStr env (get_cache_path env url))
    ∧ (is_cached env url = false → get_cached_url env url = url) := by
  refine ⟨?_, ?_, ?_, ?_, ?_⟩
  · intro e hf
    simp [cache_url, cache_url_run, hf]
  · intro soup e hf hw
    simp [cache_url, cache_url_run, hf, hw]
  · intro soup hf hw
    simp [cache_url, cache_url_run, hf, hw]
  · intro hc
    simp [get_cached_url, hc]
  · intro hc
    simp [get_cached_url, hc]

/-- Witness for C4 (amended) in the concrete environment where the only
asset download fails: the page fetch and write succeed, so cache_url is
True, and an uncached URL is returned unchanged by get_cached_url. -/
theorem C4_cache_best_effort_witness :
    cache_url envAssetFail "http://e" = true
    ∧ get_cached_url envAssetFail "http://other" = "http://other" :=
  ⟨(C4_cache_best_effort envAssetFail "http://e").2.2.1
      { baseHref := Option.none, tags := [.imgSrc "pic.png"] } rfl rfl,
   (C4_cache_best_effort envAssetFail "http://other").2.2.2.2 rfl⟩

/-- Python truthiness for the embedded values. -/
def PyVal.truthy : PyVal → Bool
  | .str s => ! (s == "")
  | .int n => ! (n == 0)
  | .bool b => b
  | .dt _ => true
  | .none => false
  | .other => true

/-- Python int(x) for add_slide's duration field (slidestore.py line 154):
ints pass through, bools are ints, strings parse or raise ValueError,
anything else raises TypeError.  Both error kinds are caught by the
surrounding except clause, which turns them into one TypeError. -/
def pyIntConvert (v : PyVal) : Except PyError Int :=
  match v with
  | .int n => .ok n
  | .bool b => .ok (if b then 1 else 0)
  | .str s =>
    match pyIntOfString s with
    | some n => .ok n
    | Option.none => .error (.valueError "invalid literal for int() with base 10")
  | _ => .error (.typeError "int() argument must be a string or a number")

/-- A slide_data dict passed to SlideStore.add_slide.  Option.none marks an
absent key (dict.get then returns None); some PyVal.none an explicit None
value. -/
structure SlideData where
  source : Option PyVal
  duration : Option PyVal
  start : Option PyVal
  end_ : Option PyVal
  hide : Option PyVal
deriving Repr, DecidableEq

/-- One slide record as stored in slides.json by add_slide (the new_slide
dict of slidestore.py lines 209-215). -/
structure RawSlide where
  source : String
  duration : Int
  start : Option String
  end_ : Option String
  hide : Bool
deriving Repr, DecidableEq

/-- Python's start >= end comparison on the values that can reach
slidestore.py line 182: datetimes compare by instant, numbers by value,
strings lexicographically; any other pair raises TypeError. -/
def pyGE (a b : PyVal) : Except PyError Bool :=
  match a, b with
  | .dt x, .dt y => .ok (decide (y ≤ x))
  | .int x, .int y => .ok (decide (y ≤ x))
  | .int x, .bool y => .ok (decide ((if y then 1 else 0) ≤ x))
  | .bool x, .int y => .ok (decide (y ≤ (if x then 1 else 0)))
  | .bool x, .bool y => .ok (decide ((if y then (1 : Int) else 0) ≤ (if x then 1 else 0)))
  | .str x, .str y => .ok (decide (y ≤ x))
  | _, _ => .error (.typeError "unorderable types")

/-- start.isoformat() if start else None (slidestore.py lines 212-213):
falsy values give None, datetimes format, and any other truthy value has
no isoformat attribute, raising AttributeError. -/
def pyIsoOpt (isoFmt : Int → String) (v : PyVal) : Except PyError (Option String) :=
  if v.truthy then
    match v with
    | .dt t => .ok (some (isoFmt t))
    | _ => .error (.otherError "AttributeError: isoformat")
  else .ok Option.none

/-- The start / end conversion of add_slide (slidestore.py lines 163-180):
a truthy string is parsed with datetime.fromisoformat (a ValueError
becomes the invalid-format message), and every other value passes through
unchanged; an absent key arrives as None. -/
def convertTime (isoParse : String → Option Int) (v : Option PyVal)
    (msg : String) : Except PyError PyVal :=
  match v with
  | Option.none => .ok .none
  | some w =>
    if w.truthy then
      match w with
      | .str s =>
        match isoParse s with
        | some t => .ok (.dt t)
        | Option.none => .error (.valueError msg)
      | _ => .ok w
    else .ok w

/-- Embedding of SlideStore.add_slide (slidestore.py lines 115-227).
isoParse and isoFmt stand for datetime.fromisoformat and isoformat;
fileData is the list returned by _file_handler.load() (the source
substitutes an empty list when that load fails, so any list can appear
here).  The ok value is the list saved back to the file; the save's own
IOError re-raise path is not modelled.

The duration check reproduces the source exactly: the try block at lines
153-157 computes int(duration) and raises
ValueError "Duration must be positive" when the result is not positive,
and the except (ValueError, TypeError) at lines 158-160 catches both that
ValueError and any conversion error, re-raising
TypeError "Duration must be an integer" in both cases. -/
def add_slide (isoParse : String → Option Int) (isoFmt : Int → String)
    (slide_data : SlideData) (fileData : List RawSlide) :
    Except PyError (List RawSlide) :=
  match slide_data.source with
  | Option.none => .error (.valueError "Missing required field: source")
  | some sourceV =>
    match slide_data.duration with
    | Option.none => .error (.valueError "Missing required field: duration")
    | some durationV =>
      match sourceV with
      | .str s =>
        if pyStrip s = "" then .error (.valueError "Source cannot be empty")
        else
          match
            (match pyIntConvert durationV with
             | .error e => (.error e : Except PyError Int)
             | .ok d =>
               if d ≤ 0 then
                 (.error (.valueError "Duration must be positive") : Except PyError Int)
               else (.ok d : Except PyError Int))
          with
          | .error _ => .error (.typeError "Duration must be an integer")
          | .ok duration =>
            match convertTime isoParse slide_data.start "Invalid start time format" with
            | .error e => .error e
            | .ok startV =>
              match convertTime isoParse slide_data.end_ "Invalid end time format" with
              | .error e => .error e
              | .ok endV =>
                match
                  (if startV.truthy && endV.truthy then pyGE startV endV
                   else (.ok false : Except PyError Bool))
                with
                | .error e => .error e
                | .ok ge =>
                  if ge then .error (.valueError "Start time must be before end time")
                  else
                    let hide : Bool :=
                      match slide_data.hide with
                      | Option.none => false
                      | some (.bool b) => b
                      | some (.str s2) =>
                        decide (s2.toLower ∈ ["true", "yes", "1", "t", "y"])
                      | some v => v.truthy
                    match pyIsoOpt isoFmt startV with
                    | .error e => .error e
                    | .ok startStr =>
                      match pyIsoOpt isoFmt endV with
                      | .error e => .error e
                      | .ok endStr =>
                        .ok (fileData ++
                          [({ source := s, duration := duration, start := startStr,
                              end_ := endStr, hide := hide } : RawSlide)])
      | _ => .error (.typeError "Source must be a string")

/-- Claim C5's divergence, evaluated on the failing input: add_slide with
source "x" and duration 0 raises TypeError "Duration must be an integer",
because the positivity ValueError raised inside the try block is caught by
that block's own except (ValueError, TypeError) clause and re-raised as a
TypeError — while the Slide constructor itself (whose positivity check
sits outside any try, models.py line 47) raises
ValueError "Duration must be positive" for the same data, which is what
the claim and add_slide's docstring state. -/
theorem C5_duration_zero_typeError :
    add_slide (fun _ => Option.none) (fun _ => "")
      { source := some (.str "x"), duration := some (.int 0),
        start := Option.none, end_ := Option.none, hide := Option.none } []
      = .error (.typeError "Duration must be an integer")
    ∧ slideInit (.str "x") (.int 0) .none .none (.bool false)
      = .error (.valueError "Duration must be positive") :=
  ⟨rfl, rfl⟩

/-- Witness for C3 in the concrete environment: the tag list written for
http://e is exactly the rewrite map over the fetched soup's tags (here the
single image reference, unrewritten because its download failed). -/
theorem C3_cache_hash_layout_witness :
    [Tag.imgSrc "pic.png"] =
      ([Tag.imgSrc "pic.png"]).map
        (rewriteTag envAssetFail
          (cacheBaseUrl envAssetFail "http://e"
            { baseHref := Option.none, tags := [Tag.imgSrc "pic.png"] })
          (get_cache_dir_for_url envAssetFail "http://e")) :=
  (C3_cache_hash_layout envAssetFail).2.2.2.2.1 "http://e"
    { baseHref := Option.none, tags := [Tag.imgSrc "pic.png"] }
    [Tag.imgSrc "pic.png"] rfl rfl
